import Mathlib

/-!
Shallow embedding of `yew-input` (src/lib.rs): a form helper component for
Yew built on a shared-state store.

Modelling conventions:
  * The user state type `T` is a parameter with `Inhabited` standing for
    Rust's `Default` and `DecidableEq` for `PartialEq`.
  * The shared store cell holding `T` (reached through `SharedHandle`) is
    carried explicitly as the `store` field of `Model`; a yew_state
    `reduce_callback` that overwrites the store with a captured value is
    modelled by that captured value (`cbReset : Option T`, `none` being the
    initial no-op `Callback::default()`).
  * Effects of `Model::update` (the `on_submit` emission, the dispatch of
    the synthetic `reset` event, the `cb_reset` reduction) are recorded in
    an explicit trace list, in program order.
  * Panics are modelled by `Option`/`Except` results: `none`/`.error`
    means the Rust code panicked at that point, carrying the state the
    mutation had reached.
-/

namespace YewInput

/-- Model of `yew::services::reader::ReaderTask`: `active` is the value
`Task::is_active` reports at pruning time; `id` identifies the file whose
read the task performs. -/
structure ReaderTask where
  id : Nat
  active : Bool
deriving DecidableEq, Repr

/-- The component properties recognized by the claims: `default` and
`auto_reset` from `Props<T>` (src/lib.rs lines 100-113).  `on_submit`,
`view` and `handle` are modelled by the trace / the `store` field. -/
structure Props (T : Type) where
  default : Option T
  auto_reset : Bool
deriving DecidableEq, Repr

/-- The component `Model<T>` (src/lib.rs lines 130-142) restricted to the
fields the claims are about: the props, the captured value of the reset
callback (`cb_reset`), the shared store cell, and the live-task set. -/
structure Model (T : Type) where
  props : Props T
  cbReset : Option T
  store : T
  tasks : List ReaderTask
deriving DecidableEq, Repr

/-- Emitting the reset callback: `Callback::default()` (`none`) is a no-op;
a callback built by `update_default` overwrites the store with the value it
captured. -/
def applyResetCb {T : Type} : Option T → T → T
  | none, s => s
  | some d, _ => d

/-- `Model::update_default` (src/lib.rs lines 228-245): capture
`props.default.unwrap_or_default()` in a fresh reset callback, and if a
default is configured emit the callback once.  The second component counts
the store reductions performed (0 or 1). -/
def update_default {T : Type} [Inhabited T] (m : Model T) : Model T × Nat :=
  let d := m.props.default.getD (default : T)
  let m' := { m with cbReset := some d }
  if m'.props.default.isSome then ({ m' with store := d }, 1) else (m', 0)

/-- `Model::create` (src/lib.rs lines 151-167): build the model with the
default (no-op) reset callback and an untouched store, then run
`update_default`.  `store0` is the value the shared store holds at mount
time. -/
def create {T : Type} [Inhabited T] (props : Props T) (store0 : T) : Model T × Nat :=
  update_default { props := props, cbReset := none, store := store0, tasks := [] }

/-- `Model::change` (src/lib.rs lines 214-221): replace the props wholesale
and, when the new default differs from the previous one by equality, rerun
`update_default`.  The second component counts store reductions. -/
def change {T : Type} [Inhabited T] [DecidableEq T] (m : Model T) (newProps : Props T) :
    Model T × Nat :=
  let last := m.props.default
  let m' := { m with props := newProps }
  if m'.props.default ≠ last then update_default m' else (m', 0)

/-- Observable effects of the submit path, listed in program order.
`submitDispatch` is the synthetic submit event dispatched by
`FormHandle::submit`; `onSubmit s` is `props.on_submit.emit` with the
cloned state `s`; `resetDispatch` is the `reset` event dispatched on the
submit event's target; `resetReduce` is the `cb_reset.emit(())` store
reduction. -/
inductive FormEvent (T : Type) where
  | submitDispatch
  | onSubmit (s : T)
  | resetDispatch
  | resetReduce
deriving DecidableEq, Repr

/-- Result of one `Model::update` call: the new model, the effect trace in
program order, and the returned `ShouldRender`. -/
structure UpdateResult (T : Type) where
  model : Model T
  trace : List (FormEvent T)
  shouldRender : Bool
deriving DecidableEq, Repr

/-- `Model::update` on `Msg::Submit(e)` (src/lib.rs lines 171-181): emit
`on_submit` with a clone of the current store state; then, if `auto_reset`
is set, dispatch a `reset` event on `e.target()` when a target is present
(`targetPresent`) and emit the reset callback.  Returns `false` for
`ShouldRender`. -/
def update_submit {T : Type} (m : Model T) (targetPresent : Bool) : UpdateResult T :=
  if m.props.auto_reset then
    { model := { m with store := applyResetCb m.cbReset m.store }
      trace := [FormEvent.onSubmit m.store]
                 ++ (if targetPresent then [FormEvent.resetDispatch] else [])
                 ++ [FormEvent.resetReduce]
      shouldRender := false }
  else
    { model := m, trace := [FormEvent.onSubmit m.store], shouldRender := false }

/-- The form's `onreset` handler (src/lib.rs lines 204-211):
`cb_reset.reform` — firing a reset event on the form emits the reset
callback against the store. -/
def fire_reset {T : Type} (m : Model T) : Model T :=
  { m with store := applyResetCb m.cbReset m.store }

/-- `FormHandle::submit` (src/lib.rs lines 33-42) composed with the form's
`onsubmit` wiring: if the node reference casts to a live element
(`nodeBound`), a submit event is dispatched, which reaches `cb_submit` and
so `Msg::Submit`; otherwise nothing at all happens. -/
def submit_invoke {T : Type} (nodeBound : Bool) (m : Model T) (targetPresent : Bool) :
    Model T × List (FormEvent T) :=
  if nodeBound then
    ((update_submit m targetPresent).model,
      FormEvent.submitDispatch :: (update_submit m targetPresent).trace)
  else (m, [])

/-- `SharedHandle::reduce_callback_once_with`: apply the user reducer to
the store with the event payload. -/
def reduce_callback_once_with {T E : Type} (f : T → E → T) : E → T → T :=
  fun e s => f s e

/-- `Callback::reform`: precompose a callback with an adapter on the event
payload. -/
def reform {T E F : Type} (cb : E → T → T) (g : F → E) : F → T → T :=
  fun x s => cb (g x) s

/-- `yew::InputData`: the payload of a text-input event. -/
structure InputData where
  value : String
deriving DecidableEq, Repr

/-- `FormHandle::set_text` (src/lib.rs lines 55-59):
`reduce_callback_once_with(f).reform(|data| data.value)`. -/
def set_text {T : Type} (f : T → String → T) : InputData → T → T :=
  reform (reduce_callback_once_with f) (fun data => data.value)

/-- `web_sys::HtmlSelectElement` restricted to its `value`. -/
structure HtmlSelectElement where
  value : String
deriving DecidableEq, Repr

/-- `yew::ChangeData`: payload of a change event. -/
inductive ChangeData where
  | Value (v : String)
  | Select (el : HtmlSelectElement)
  | Files (fs : List Nat)
deriving DecidableEq, Repr

/-- The reform adapter inside `FormHandle::set_select` (src/lib.rs lines
66-76): extract the select element's value, or panic ("Select element is
required") — modelled by `none` — on any other change payload. -/
def select_value : ChangeData → Option String
  | ChangeData.Select el => some el.value
  | _ => none

/-- `FormHandle::set_select`: on a select-element change event the user
reducer runs on the extracted value; otherwise the adapter panics before
the reducer is reached, so the store is never written (`none`). -/
def set_select {T : Type} (f : T → String → T) : ChangeData → T → Option T :=
  fun data s => (select_value data).map (fun v => reduce_callback_once_with f v s)

/-- The scheduling loop of `Model::update` on `Msg::Files` (src/lib.rs
lines 183-194): for each file in order, `read_file` either yields a task,
pushed onto the accumulator, or fails, upon which `.expect` panics —
modelled by `.error` carrying the task list as the aborted loop leaves
it. -/
def schedule_files (readFile : Nat → Option ReaderTask) :
    List ReaderTask → List Nat → Except (List ReaderTask) (List ReaderTask)
  | acc, [] => Except.ok acc
  | acc, f :: fs =>
    match readFile f with
    | some t => schedule_files readFile (acc ++ [t]) fs
    | none => Except.error acc

/-- `Model::update` on `Msg::Files(files, cb)`: first
`tasks.retain(Task::is_active)`, then schedule one read per file.
`readFile` stands for `ReaderService::read_file` with the completion
callback already fixed; files are identified by `Nat`. -/
def update_files (readFile : Nat → Option ReaderTask) (tasks : List ReaderTask)
    (files : List Nat) : Except (List ReaderTask) (List ReaderTask) :=
  schedule_files readFile (tasks.filter (fun t => t.active)) files

/-- The live-task set an update leaves behind, whether it returned
normally or panicked part-way. -/
def tasksAfter : Except (List ReaderTask) (List ReaderTask) → List ReaderTask
  | Except.ok ts => ts
  | Except.error ts => ts

/-- Concrete model over `Nat` used to instantiate hypotheses: no default,
no auto-reset, store at 5. -/
def m2 : Model Nat := ⟨⟨none, false⟩, none, 5, []⟩

/-- Concrete model over `Nat`: default 1 applied, store at 1. -/
def m4 : Model Nat := ⟨⟨some 1, false⟩, some 1, 1, []⟩

/-- Concrete props over `Nat` carrying default 2. -/
def p4 : Props Nat := ⟨some 2, false⟩

/-- Concrete props over `Nat` with no default. -/
def p4n : Props Nat := ⟨none, false⟩

/-- Concrete `read_file` stand-in that fails exactly on file 0. -/
def readFileFail0 : Nat → Option ReaderTask :=
  fun n => if n = 0 then none else some ⟨n, true⟩

/-- Concrete `read_file` stand-in that always succeeds. -/
def readFileOk : Nat → Option ReaderTask :=
  fun n => some ⟨n, true⟩

/-- Scheduling succeeds past every file on which `readFile` succeeds,
appending the produced tasks in order. -/
theorem schedule_files_ok (readFile : Nat → Option ReaderTask) (acc : List ReaderTask)
    (fs : List Nat) (h : ∀ f ∈ fs, (readFile f).isSome) :
    schedule_files readFile acc fs = Except.ok (acc ++ fs.filterMap readFile) := by
  induction fs generalizing acc with
  | nil => simp [schedule_files]
  | cons f fs ih =>
    obtain ⟨t, ht⟩ := Option.isSome_iff_exists.mp (h f (List.mem_cons_self f fs))
    rw [schedule_files, ht]
    dsimp only
    rw [ih (acc ++ [t]) (fun g hg => h g (List.mem_cons_of_mem f hg))]
    simp [List.filterMap_cons, ht]

/-- Scheduling stops at the first failing file, keeping the tasks pushed
before it. -/
theorem schedule_files_error (readFile : Nat → Option ReaderTask) (acc : List ReaderTask)
    (pre : List Nat) (bad : Nat) (post : List Nat)
    (hpre : ∀ f ∈ pre, (readFile f).isSome) (hbad : readFile bad = none) :
    schedule_files readFile acc (pre ++ bad :: post)
      = Except.error (acc ++ pre.filterMap readFile) := by
  induction pre generalizing acc with
  | nil => simp [schedule_files, hbad]
  | cons f fs ih =>
    obtain ⟨t, ht⟩ := Option.isSome_iff_exists.mp (hpre f (List.mem_cons_self f fs))
    rw [List.cons_append, schedule_files, ht]
    dsimp only
    rw [ih (acc ++ [t]) (fun g hg => hpre g (List.mem_cons_of_mem f hg))]
    simp [List.filterMap_cons, ht]

/-- When `readFile` succeeds on every file, exactly one task per file is
produced. -/
theorem filterMap_length_all_isSome (readFile : Nat → Option ReaderTask) (fs : List Nat)
    (h : ∀ f ∈ fs, (readFile f).isSome) :
    (fs.filterMap readFile).length = fs.length := by
  induction fs with
  | nil => rfl
  | cons f fs ih =>
    obtain ⟨t, ht⟩ := Option.isSome_iff_exists.mp (h f (List.mem_cons_self f fs))
    simp [List.filterMap_cons, ht, ih (fun g hg => h g (List.mem_cons_of_mem f hg))]

/-- Claim C1: on a Submit message with `auto_reset = true` and configured
default `d`, `on_submit` is emitted with the pre-reset state `s` strictly
before the reset event dispatch and before the reset reduction, and after
the update the store equals `d`.  The model is the one `create` builds for
default `some d`, with the store then driven to an arbitrary `s` by user
reductions. -/
theorem submit_auto_reset_ordering {T : Type} [Inhabited T] (d s0 s : T) (tp : Bool) :
    (update_submit { (create ⟨some d, true⟩ s0).1 with store := s } tp).trace
      = [FormEvent.onSubmit s]
          ++ (if tp then [FormEvent.resetDispatch] else [])
          ++ [FormEvent.resetReduce]
    ∧ (update_submit { (create ⟨some d, true⟩ s0).1 with store := s } tp).model.store = d := by
  cases tp <;> exact ⟨rfl, rfl⟩

/-- Claim C2: on a Submit message with `auto_reset = false`, `on_submit` is
emitted with the current state and nothing else happens: the model (store
included) is unchanged, and the trace holds neither a reset dispatch nor a
reset reduction. -/
theorem submit_no_auto_reset {T : Type} (m : Model T) (tp : Bool)
    (h : m.props.auto_reset = false) :
    update_submit m tp = ⟨m, [FormEvent.onSubmit m.store], false⟩ := by
  simp [update_submit, h]

/-- Witness for C2 at a concrete model. -/
theorem submit_no_auto_reset_witness :
    m2.props.auto_reset = false
    ∧ update_submit m2 true = ⟨m2, [FormEvent.onSubmit 5], false⟩ :=
  ⟨rfl, submit_no_auto_reset m2 true rfl⟩

/-- Claim C3: `create` with default `some d` reduces the store to `d`
(exactly one reduction) before any user event; `create` with default
`none` leaves the store untouched (zero reductions). -/
theorem create_default_roundtrip {T : Type} [Inhabited T] (d s0 : T) (ar : Bool) :
    ((create ⟨some d, ar⟩ s0).1.store = d ∧ (create ⟨some d, ar⟩ s0).2 = 1)
    ∧ ((create ⟨none, ar⟩ s0).1.store = s0 ∧ (create ⟨none, ar⟩ s0).2 = 0) :=
  ⟨⟨rfl, rfl⟩, ⟨rfl, rfl⟩⟩

/-- Claim C4: `change` to props whose default `some d2` differs from the
previous default performs exactly one store reduction, to `d2`, and
regenerates the reset callback to capture `d2`; `change` to props with a
default equal to the previous one performs zero reductions and leaves
store and reset callback alone; `change` to differing props with the
default now absent still regenerates the reset callback (which then
captures `T::default()`) while performing zero store reductions. -/
theorem change_default_policy {T : Type} [Inhabited T] [DecidableEq T]
    (m : Model T) (p2 : Props T) :
    (∀ d2, p2.default = some d2 → p2.default ≠ m.props.default →
       change m p2 = ({ m with props := p2, cbReset := some d2, store := d2 }, 1))
    ∧ (p2.default = m.props.default → change m p2 = ({ m with props := p2 }, 0))
    ∧ (p2.default = none → p2.default ≠ m.props.default →
       change m p2 = ({ m with props := p2, cbReset := some (default : T) }, 0)) := by
  refine ⟨?_, ?_, ?_⟩
  · intro d2 h2 hne
    rw [h2] at hne
    simp [change, update_default, h2, hne]
  · intro he
    simp [change, he]
  · intro h0 hne
    rw [h0] at hne
    simp [change, update_default, h0, hne]

/-- Witness for C4: changing the default from 1 to 2 reduces once to 2;
re-supplying default 2 with the store mutated to 9 reduces zero times;
dropping the default from 1 to absent regenerates the reset callback to
capture 0 (the `Nat` default) with zero reductions. -/
theorem change_default_policy_witness :
    (p4.default = some 2 ∧ p4.default ≠ m4.props.default
      ∧ change m4 p4 = (⟨⟨some 2, false⟩, some 2, 2, []⟩, 1))
    ∧ (p4.default = p4.default
      ∧ change ⟨p4, some 2, 9, []⟩ p4 = (⟨p4, some 2, 9, []⟩, 0))
    ∧ (p4n.default = none ∧ p4n.default ≠ m4.props.default
      ∧ change m4 p4n = (⟨p4n, some 0, 1, []⟩, 0)) :=
  ⟨⟨rfl, by decide, (change_default_policy m4 p4).1 2 rfl (by decide)⟩,
   ⟨rfl, (change_default_policy ⟨p4, some 2, 9, []⟩ p4).2.1 rfl⟩,
   ⟨rfl, by decide, (change_default_policy m4 p4n).2.2 rfl (by decide)⟩⟩

/-- Claim C5: the callback `set_text f` hands the reducer `f` exactly the
event's text value, with no transformation. -/
theorem set_text_exact_value {T : Type} (f : T → String → T) (data : InputData) (s : T) :
    set_text f data s = f s data.value :=
  rfl

/-- Claim C6: `set_select f` on a change event not from a select element
panics before `f` runs (result `none`, store untouched); on a select
element's change event `f` receives the selected option's value. -/
theorem set_select_select_only {T : Type} (f : T → String → T) (s : T) :
    (∀ v, set_select f (ChangeData.Value v) s = none)
    ∧ (∀ fs, set_select f (ChangeData.Files fs) s = none)
    ∧ (∀ el, set_select f (ChangeData.Select el) s = some (f s el.value)) :=
  ⟨fun _ => rfl, fun _ => rfl, fun _ => rfl⟩

/-- Counterexample to claim C7 as stated: files `[0, 1]` where reading
file 0 fails to schedule.  The `.expect` panic aborts the loop, so the
update ends in a panic (`.error`) and no task for the remaining file 1 is
ever scheduled — the claim asserted the remaining files would still be
scheduled. -/
theorem files_failure_counterexample :
    update_files readFileFail0 [] [0, 1] = Except.error []
    ∧ (tasksAfter (update_files readFileFail0 [] [0, 1])).any (fun t => t.id = 1) = false :=
  ⟨rfl, rfl⟩

/-- Claim C7 amended: a scheduling failure panics, aborting the whole
update; tasks scheduled for the files before the failing one remain in the
live-task set, and the files after the failing one are not scheduled. -/
theorem files_failure_aborts (readFile : Nat → Option ReaderTask) (tasks : List ReaderTask)
    (pre : List Nat) (bad : Nat) (post : List Nat)
    (hpre : ∀ f ∈ pre, (readFile f).isSome) (hbad : readFile bad = none) :
    update_files readFile tasks (pre ++ bad :: post)
      = Except.error (tasks.filter (fun t => t.active) ++ pre.filterMap readFile) :=
  schedule_files_error readFile (tasks.filter (fun t => t.active)) pre bad post hpre hbad

/-- Witness for the amended C7: files `[2, 3, 0, 4]`, failure at file 0:
the surviving active task and the tasks for files 2 and 3 remain; file 4
is not scheduled. -/
theorem files_failure_aborts_witness :
    (∀ f ∈ [2, 3], (readFileFail0 f).isSome) ∧ readFileFail0 0 = none
    ∧ update_files readFileFail0 [⟨7, true⟩, ⟨8, false⟩] [2, 3, 0, 4]
        = Except.error [⟨7, true⟩, ⟨2, true⟩, ⟨3, true⟩] :=
  ⟨by decide, rfl,
    files_failure_aborts readFileFail0 [⟨7, true⟩, ⟨8, false⟩] [2, 3] 0 [4] (by decide) rfl⟩

/-- Claim C8: invoking the `submit()` callback while the node reference is
not bound to a live element is a no-op: no submit event is dispatched, no
`on_submit` is emitted (empty trace), and the model is unchanged. -/
theorem submit_unbound_noop {T : Type} (m : Model T) (tp : Bool) :
    submit_invoke false m tp = (m, []) :=
  rfl

/-- Claim C9: on a Files message whose scheduling all succeeds, the update
first prunes inactive tasks and then appends exactly one new task per
file: the result is the previously-active tasks followed by the new tasks,
one per file. -/
theorem files_prune_then_schedule (readFile : Nat → Option ReaderTask)
    (tasks : List ReaderTask) (files : List Nat)
    (h : ∀ f ∈ files, (readFile f).isSome) :
    update_files readFile tasks files
      = Except.ok (tasks.filter (fun t => t.active) ++ files.filterMap readFile)
    ∧ (files.filterMap readFile).length = files.length :=
  ⟨schedule_files_ok readFile (tasks.filter (fun t => t.active)) files h,
   filterMap_length_all_isSome readFile files h⟩

/-- Witness for C9: two files over a task set with one inactive task. -/
theorem files_prune_then_schedule_witness :
    (∀ f ∈ [5, 6], (readFileOk f).isSome)
    ∧ update_files readFileOk [⟨0, true⟩, ⟨1, false⟩] [5, 6]
        = Except.ok [⟨0, true⟩, ⟨5, true⟩, ⟨6, true⟩]
    ∧ ([5, 6].filterMap readFileOk).length = [5, 6].length :=
  ⟨by decide,
   (files_prune_then_schedule readFileOk [⟨0, true⟩, ⟨1, false⟩] [5, 6] (by decide)).1,
   (files_prune_then_schedule readFileOk [⟨0, true⟩, ⟨1, false⟩] [5, 6] (by decide)).2⟩

/-- Claim C10: even with no configured default, `create` builds a reset
callback capturing `T::default()`, so a reset event fired on the form
overwrites the store with the default value instead of being a no-op. -/
theorem reset_without_default {T : Type} [Inhabited T] (s0 : T) (ar : Bool) :
    (create ⟨none, ar⟩ s0).1.cbReset = some (default : T)
    ∧ (fire_reset (create ⟨none, ar⟩ s0).1).store = (default : T) :=
  ⟨rfl, rfl⟩

end YewInput
